import Mathlib

/-!
# Bookmark Bridge — shallow embedding and verification

A shallow embedding in Lean 4 of the sync state machine of the
Bookmark Bridge Obsidian plugin (`src/main.ts`,
`src/services/twitter-service.ts`), together with theorems settling the
specification claims about it.

Times are modelled as `Int` milliseconds (JavaScript `Date.now()`
values).  Stateful methods become explicit state-passing functions; the
network is an oracle argument supplying each call's response; fallible
code returns `Except`.
-/

namespace BookmarkBridge

/-- JavaScript string truthiness applied by `||` on an optional string:
`some ""` and `none` are falsy. -/
def jsStrOrD (o : Option String) (d : String) : String :=
  match o with
  | some s => if s = "" then d else s
  | none => d

/-- Computes `a || b` on optional strings with JavaScript truthiness
(an empty string falls through to `b`). -/
def jsOrString : Option String → Option String → Option String
  | some s, b => if s = "" then b else some s
  | none, b => b

/-- Substring test: `(s.splitOn t).length > 1` ⇔ `t` occurs in `s` (for non-empty `t`):
models JavaScript `String.prototype.includes` / a regex literal search. -/
def containsSubstr (s t : String) : Bool :=
  (s.splitOn t).length > 1

/-- The span of leading decimal digits of a character list. -/
def digitSpan : List Char → (List Char × List Char)
  | [] => ([], [])
  | c :: cs =>
    if c.isDigit then
      let (d, r) := digitSpan cs
      (c :: d, r)
    else ([], c :: cs)

/-- Numeric value of a digit list (most significant first). -/
def digitsToNat (ds : List Char) : Nat :=
  ds.foldl (fun acc c => acc * 10 + (c.toNat - '0'.toNat)) 0

/-- Model of JavaScript `parseInt(s, 10)`: skip leading whitespace,
accept an optional sign, then read a maximal run of decimal digits;
`none` models `NaN` (no digits found). -/
def parseIntJS (s : String) : Option Int :=
  let cs := s.toList.dropWhile (fun c => c = ' ' || c = '\t' || c = '\n' || c = '\r')
  let (neg, cs) : Bool × List Char :=
    match cs with
    | '-' :: rest => (true, rest)
    | '+' :: rest => (false, rest)
    | _ => (false, cs)
  let (ds, _) := digitSpan cs
  if ds.isEmpty then none
  else some (if neg then -(digitsToNat ds : Int) else (digitsToNat ds : Int))

/-- Search `cs` for the first occurrence of `pre ++ <digits> ++ post`
(at least one digit) and return the digits' value: models a regex
search such as `/wait (\d+) minutes/`. -/
def scanPattern (pre post : String) : List Char → Option Nat
  | [] => none
  | c :: cs =>
    let here : Option Nat :=
      match (c :: cs).dropPrefix? pre.toList with
      | none => none
      | some rest =>
        let (ds, rest') := digitSpan rest
        if ds.isEmpty then none
        else if post.toList.isPrefixOf rest' then some (digitsToNat ds)
        else none
    match here with
    | some n => some n
    | none => scanPattern pre post cs

/-! ## RateGate (`twitter-service.ts:835-896`)

The rate-limit state consists of the in-memory `lastApiCallTime` field of
`TwitterService` and the persisted `settings.lastSyncTime`, compared
against a fixed fifteen-minute window. -/

/-- Constant `apiRateLimitWindow = 15 * 60 * 1000` (`twitter-service.ts:68`). -/
def apiRateLimitWindow : Int := 15 * 60 * 1000

/-- Embeds `TwitterService.isRateLimited` (`twitter-service.ts:835-875`):
bypass short-circuits to `false`; with no recorded call
(`max lastApiCallTime lastSyncTime = 0`) returns `false`; otherwise
limited iff the elapsed time since the most recent recorded event is
strictly below the window. -/
def isRateLimited (bypassRateLimit : Bool) (lastApiCallTime lastSyncTime now : Int) :
    Bool :=
  if bypassRateLimit then false
  else
    let lastRelevantTime := max lastApiCallTime lastSyncTime
    if lastRelevantTime = 0 then false
    else decide (now - lastRelevantTime < apiRateLimitWindow)

/-- The rate-limit clock pair: the in-memory `lastApiCallTime` and the
persisted `settings.lastSyncTime`. -/
structure RateState where
  lastApiCallTime : Int
  lastSyncTime : Int
  deriving Repr, DecidableEq

/-- Embeds `TwitterService.updateRateLimitTimestamp` (`twitter-service.ts:881-896`):
records a call by setting both clocks to `now`. -/
def updateRateLimitTimestamp (now : Int) (_r : RateState) : RateState :=
  { lastApiCallTime := now, lastSyncTime := now }

/-- Applies `isRateLimited` to a `RateState`. -/
def isRateLimitedAt (bypass : Bool) (r : RateState) (now : Int) : Bool :=
  isRateLimited bypass r.lastApiCallTime r.lastSyncTime now

/-! ## Data model (`main.ts:6-39`, `twitter-service.ts:8-60`) -/

/-- Field `storageMethod: 'separate' | 'single'`. -/
inductive StorageMethod where
  | separate
  | single
  deriving Repr, DecidableEq

/-- The persisted `BookmarkBridgeSettings` record (`main.ts:6-39`):
credentials, storage configuration, sync state, pagination cursor and
debug flags.  UI-only fields (template text, log-file path, auto-sync
toggle) are irrelevant to the claims and omitted. -/
structure Settings where
  clientId : String
  clientSecret : String
  oauth2AccessToken : String
  oauth2RefreshToken : String
  codeVerifier : String
  storageMethod : StorageMethod
  targetFolder : String
  singleFileName : String
  lastSyncTimestamp : Int
  nextPaginationToken : String
  initialSyncComplete : Bool
  lastSyncPage : Int
  lastSyncTime : Int
  syncInProgress : Bool
  bypassRateLimit : Bool
  deriving Repr, DecidableEq

/-- Embeds `TwitterUser` (`twitter-service.ts:39-43`). -/
structure TwitterUser where
  id : String
  name : String
  username : String
  deriving Repr, DecidableEq

/-- Embeds `TwitterMedia` (`twitter-service.ts:45-49`): `url` and
`preview_image_url` are optional fields. -/
structure TwitterMedia where
  media_key : String
  url : Option String
  preview_image_url : Option String
  deriving Repr, DecidableEq

/-- A normalized `TwitterBookmark` (`twitter-service.ts:51-60`);
`createdAt` is the tweet's timestamp in milliseconds
(`new Date(created_at).getTime()`). -/
structure TwitterBookmark where
  id : String
  text : String
  createdAt : Int
  authorId : String
  authorUsername : String
  authorName : String
  mediaUrls : List String
  tweetUrl : String
  deriving Repr, DecidableEq

/-- One raw tweet of a bookmarks API response; `created_at` is modelled
already parsed to milliseconds, `media_keys` is
`tweet.attachments?.media_keys || []`. -/
structure RawTweet where
  id : String
  text : String
  created_at : Int
  author_id : String
  media_keys : List String
  deriving Repr, DecidableEq

/-- The `includes` side lists of a bookmarks response; each list is optional
as in the optional-chained accesses `includes?.users` /
`includes?.media`. -/
structure Includes where
  users : Option (List TwitterUser)
  media : Option (List TwitterMedia)
  deriving Repr, DecidableEq

/-- The `meta` of a bookmarks response. -/
structure BookmarksMeta where
  next_token : Option String
  deriving Repr, DecidableEq

/-- A bookmarks API response page: `data.data` (optional list of raw
tweets), `data.includes` and `meta`. -/
structure BookmarksPage where
  data : Option (List RawTweet)
  includes : Option Includes
  meta : Option BookmarksMeta
  deriving Repr, DecidableEq

/-! ## processBookmarksPage (`twitter-service.ts:1152-1192`) -/

/-- Embeds `includes?.users?.find(user => user.id === tweet.author_id)`. -/
def findAuthor (incl : Option Includes) (authorId : String) : Option TwitterUser :=
  match incl with
  | none => none
  | some i =>
    match i.users with
    | none => none
    | some us => us.find? (fun u => u.id = authorId)

/-- Embeds `mediaItems.find(item => item.media_key === key)` followed by
`media?.url || media?.preview_image_url || null`
(`twitter-service.ts:1166-1169`). -/
def mediaUrlFor (mediaItems : List TwitterMedia) (key : String) : Option String :=
  match mediaItems.find? (fun m => m.media_key = key) with
  | some m => jsOrString m.url (jsOrString m.preview_image_url none)
  | none => none

/-- Embeds `mediaKeys.map(...).filter(url => url !== null)`
(`twitter-service.ts:1165-1170`). -/
def mediaUrlsFor (incl : Option Includes) (keys : List String) : List String :=
  let mediaItems := ((incl.bind (fun i => i.media)).getD [])
  (keys.map (mediaUrlFor mediaItems)).filterMap id

/-- Normalization of one raw tweet into a `TwitterBookmark`
(`twitter-service.ts:1179-1188`); a missing author yields
`'unknown'` / `'Unknown User'`, and the tweet URL interpolates
`author?.username` (the string `"undefined"` when absent, as in
JavaScript template-literal interpolation). -/
def mkBookmark (incl : Option Includes) (tweet : RawTweet) : TwitterBookmark :=
  let author := findAuthor incl tweet.author_id
  { id := tweet.id
    text := tweet.text
    createdAt := tweet.created_at
    authorId := tweet.author_id
    authorUsername := jsStrOrD (author.map (fun a => a.username)) "unknown"
    authorName := jsStrOrD (author.map (fun a => a.name)) "Unknown User"
    mediaUrls := mediaUrlsFor incl tweet.media_keys
    tweetUrl := "https://twitter.com/" ++
      (match author with | some a => a.username | none => "undefined") ++
      "/status/" ++ tweet.id }

/-- The per-tweet loop of `processBookmarksPage`
(`twitter-service.ts:1156-1189`): a tweet is skipped when a cutoff is
active (`lastSyncTimestamp > 0`) and its timestamp is at or before the
cutoff; otherwise a bookmark is accumulated. -/
def processTweets (incl : Option Includes) (lastSyncTimestamp : Int) :
    List RawTweet → List TwitterBookmark
  | [] => []
  | tweet :: rest =>
    if lastSyncTimestamp > 0 ∧ tweet.created_at ≤ lastSyncTimestamp then
      processTweets incl lastSyncTimestamp rest
    else
      mkBookmark incl tweet :: processTweets incl lastSyncTimestamp rest

/-- Embeds `TwitterService.processBookmarksPage` (`twitter-service.ts:1152-1192`). -/
def processBookmarksPage (page : BookmarksPage) (lastSyncTimestamp : Int) :
    List TwitterBookmark :=
  processTweets page.includes lastSyncTimestamp (page.data.getD [])

/-! ## Token refresh and revocation (`twitter-service.ts:567-751`)

`nodeHttpRequest` (`twitter-service.ts:353-490`) records the rate-limit
timestamps before dispatching any request (`twitter-service.ts:375`), so
these operations also update `lastApiCallTime` / `settings.lastSyncTime`. -/

/-- Parsed JSON body of a token-endpoint response (`none` at the use
sites models a body `JSON.parse` throws on). -/
structure TokenBody where
  access_token : String
  refresh_token : Option String
  error_description : Option String
  deriving Repr, DecidableEq

/-- A token-endpoint HTTP response as observed by the service. -/
structure TokenResponse where
  statusCode : Int
  retryAfter : Option String
  body : Option TokenBody
  deriving Repr, DecidableEq

/-- The 429 wait-time extraction of `refreshAccessToken`
(`twitter-service.ts:620-647`): default fifteen minutes, overridden by a
parseable `retry-after` header (seconds), in turn overridden by a
`wait (\d+) minutes` pattern (case-insensitive) in the provider's
`error_description` when that description contains `'wait'`. -/
def rateLimitWaitTime (retryAfter : Option String) (body : Option TokenBody) : Int :=
  let w : Int := 15 * 60 * 1000
  let w := match retryAfter with
    | some s =>
      match parseIntJS s with
      | some n => n * 1000
      | none => w
    | none => w
  match body with
  | some b =>
    match b.error_description with
    | some d =>
      if containsSubstr d "wait" then
        match scanPattern "wait " " minutes" d.toLower.toList with
        | some m => (m : Int) * 60 * 1000
        | none => w
      else w
    | none => w
  | none => w

/-- Outcome of `refreshAccessToken`: the returned boolean, the updated
settings and in-memory rate clock, the number of token requests this
call itself issued, and the wait time extracted on a 429 (logged by the
code; surfaced here to state the extraction). -/
structure RefreshResult where
  success : Bool
  settings : Settings
  lastApiCallTime : Int
  requests : Nat
  rateLimitWaitMs : Option Int
  deriving Repr, DecidableEq

/-- Embeds `TwitterService.refreshAccessToken` (`twitter-service.ts:567-689`).
Guards: missing refresh token, missing client id, or
`retryCount > maxRetries` fail without any network call.  Otherwise one
request is issued (recording the rate timestamps first); a network error
is caught and yields `false`; HTTP 429 extracts a wait time and returns
`false` with **no** recursive retry; 2xx stores the new access token
(and refresh token when the response carries a truthy one); any other
status returns `false`. -/
def refreshAccessToken (st : Settings) (lastApiCallTime : Int)
    (retryCount maxRetries : Nat) (now : Int)
    (response : Except String TokenResponse) : RefreshResult :=
  if st.oauth2RefreshToken = "" then
    ⟨false, st, lastApiCallTime, 0, none⟩
  else if st.clientId = "" then
    ⟨false, st, lastApiCallTime, 0, none⟩
  else if retryCount > maxRetries then
    ⟨false, st, lastApiCallTime, 0, none⟩
  else
    let st := { st with lastSyncTime := now }
    match response with
    | .error _ => ⟨false, st, now, 1, none⟩
    | .ok r =>
      if r.statusCode = 429 then
        ⟨false, st, now, 1, some (rateLimitWaitTime r.retryAfter r.body)⟩
      else if 200 ≤ r.statusCode ∧ r.statusCode < 300 then
        match r.body with
        | none => ⟨false, st, now, 1, none⟩
        | some b =>
          let st := { st with oauth2AccessToken := b.access_token }
          let st := match b.refresh_token with
            | some rt => if rt = "" then st else { st with oauth2RefreshToken := rt }
            | none => st
          ⟨true, st, now, 1, none⟩
      else ⟨false, st, now, 1, none⟩

/-- Outcome of `revokeToken`. -/
structure RevokeResult where
  result : Bool
  settings : Settings
  lastApiCallTime : Int
  requests : Nat
  deriving Repr, DecidableEq

/-- Embeds `TwitterService.revokeToken` (`twitter-service.ts:694-751`): with no
stored access token it returns `true` immediately; with an access token
but no client id it returns `false` without touching the settings;
otherwise it issues the revocation request (recording the rate
timestamps), ignores the response status, catches any network error, and
in a `finally` block always clears the access token, refresh token and
code verifier before returning `true`. -/
def revokeToken (st : Settings) (lastApiCallTime : Int) (now : Int)
    (_response : Except String Int) : RevokeResult :=
  if st.oauth2AccessToken = "" then
    ⟨true, st, lastApiCallTime, 0⟩
  else if st.clientId = "" then
    ⟨false, st, lastApiCallTime, 0⟩
  else
    let st := { st with lastSyncTime := now }
    let st := { st with oauth2AccessToken := "", oauth2RefreshToken := "",
                        codeVerifier := "" }
    ⟨true, st, now, 1⟩

/-! ## fetchBookmarks (`twitter-service.ts:898-1147`) -/

/-- Computes `Math.ceil(a / b)` for a positive divisor `b` (JavaScript float
division followed by `Math.ceil`). -/
def ceilDiv (a b : Int) : Int := -((-a).fdiv b)

/-- Rendering of a `Date` into log/notice text (`toISOString`,
`toLocaleTimeString`): the program never re-reads these strings, so the
rendering is abstracted to the underlying millisecond value. -/
def jsDateString (ms : Int) : String := "@" ++ toString ms

/-- A structured error from the `twitter-api-v2` client as inspected by
the code: `errorObj.code`, `errorObj.errors[0]?.code`,
`errorObj.rateLimit?.reset` (epoch seconds) and `.message`. -/
structure ApiError where
  code : Option Int
  firstErrorCode : Option Int
  rateLimitReset : Option Int
  message : String
  deriving Repr, DecidableEq

/-- A thrown JavaScript error: a structured API error or a plain
`new Error(message)`. -/
inductive JsError where
  | api (e : ApiError)
  | plain (msg : String)
  deriving Repr, DecidableEq

/-- Projection `(error as Error).message`. -/
def JsError.message : JsError → String
  | .api e => e.message
  | .plain m => m

/-- Projection `errorObj.rateLimit?.reset` (plain errors carry none). -/
def JsError.rateLimitReset : JsError → Option Int
  | .api e => e.rateLimitReset
  | .plain _ => none

/-- Test `errorObj.code === 429 || errorObj.errors?.[0]?.code === 88`
(plain errors have no codes). -/
def isRateLimitError : JsError → Bool
  | .api e => e.code = some 429 || e.firstErrorCode = some 88
  | .plain _ => false

/-- Test `errorObj.code === 401 || errorObj.errors?.[0]?.code === 32 ||
/unauthorized/i.test(String(error))`; `String(error)` renders as
`"Error: " ++ message`. -/
def isAuthError : JsError → Bool
  | .api e => e.code = some 401 || e.firstErrorCode = some 32 ||
      containsSubstr ("Error: " ++ e.message).toLower "unauthorized"
  | .plain m => containsSubstr ("Error: " ++ m).toLower "unauthorized"

/-- The `TwitterService` instance state: the shared settings object, the
in-memory rate clock, the single-flight flag and whether `this.client`
is initialized (`client !== null` ⇔ a client was built from a non-empty
access token). -/
structure ServiceState where
  settings : Settings
  lastApiCallTime : Int
  apiCallsInProgress : Bool
  clientInitialized : Bool
  deriving Repr, DecidableEq

/-- Network oracle for one `fetchBookmarks` call: the clock value and
the responses of the `/2/users/me` call, the bookmarks call, and (when
the error handler refreshes) the token endpoint.  The sub-millisecond
latency between the timestamp updates inside one call is abstracted to
the single instant `now`. -/
structure FetchEnv where
  now : Int
  meResult : Except ApiError String
  bookmarksResult : Except ApiError BookmarksPage
  refreshResponse : Except String TokenResponse
  deriving Repr

/-- Outcome of a `fetchBookmarks` call: the returned list or the message
of the thrown error. -/
inductive FetchOutcome where
  | ok (bookmarks : List TwitterBookmark)
  | error (msg : String)
  deriving Repr, DecidableEq

/-- Result of `fetchBookmarks`: outcome, final service state, and the
count of network requests this call issued. -/
structure FetchResult where
  result : FetchOutcome
  state : ServiceState
  requests : Nat
  deriving Repr, DecidableEq

/-- JavaScript truthiness of `bookmarksResponse.meta &&
bookmarksResponse.meta.next_token` (`twitter-service.ts:1028`): a
missing meta, missing token or empty-string token all count as "no next
page". -/
def jsTokenOf (page : BookmarksPage) : Option String :=
  match page.meta with
  | none => none
  | some m =>
    match m.next_token with
    | none => none
    | some t => if t = "" then none else some t

/-- The `try` body of `fetchBookmarks` (`twitter-service.ts:920-1076`):
client initialization, the `me()` call, pagination-cursor selection, the
single bookmarks page request, page processing, and cursor persistence.
Returns the body's outcome (`JsError` for a thrown error), the state at
the throw/return point, and the number of API requests issued. -/
def fetchBody (st : ServiceState) (lastSyncTimestamp : Int) (env : FetchEnv) :
    Except JsError (List TwitterBookmark) × ServiceState × Nat :=
  let clientOk := st.clientInitialized || st.settings.oauth2AccessToken ≠ ""
  if ¬clientOk then
    (.error (.plain "Twitter client not initialized. Check your API credentials or authorize with X."),
      st, 0)
  else
    let st := { st with clientInitialized := true }
    -- `updateRateLimitTimestamp` before the me() call (`:935`)
    let st := { st with lastApiCallTime := env.now,
                        settings.lastSyncTime := env.now }
    match env.meResult with
    | .error e =>
      if isRateLimitError (.api e) then
        let waitTimeMsg :=
          match e.rateLimitReset with
          | some reset =>
            toString (ceilDiv (reset * 1000 - env.now) (1000 * 60)) ++
              " minutes (until " ++ jsDateString (reset * 1000) ++ ")"
          | none => "15 minutes"
        (.error (.plain ("X API rate limit exceeded on user info request. Please wait " ++
            waitTimeMsg ++ " before trying again.")), st, 1)
      else
        (.error (.api e), st, 1)
    | .ok _userId =>
      let _paginationToken : Option String :=
        if ¬st.settings.initialSyncComplete ∧ st.settings.nextPaginationToken ≠ "" then
          some st.settings.nextPaginationToken
        else none
      -- `updateRateLimitTimestamp` before the bookmarks call (`:1000`)
      let st := { st with lastApiCallTime := env.now,
                          settings.lastSyncTime := env.now }
      match env.bookmarksResult with
      | .ok page =>
        let bookmarks := processBookmarksPage page
            (if st.settings.initialSyncComplete then lastSyncTimestamp else 0)
        let st := { st with settings.lastSyncPage := st.settings.lastSyncPage + 1 }
        match jsTokenOf page with
        | some t =>
          let st := { st with settings.nextPaginationToken := t,
                              settings.initialSyncComplete := false }
          (.ok bookmarks, st, 2)
        | none =>
          let st := { st with settings.nextPaginationToken := "",
                              settings.initialSyncComplete := true }
          (.ok bookmarks, st, 2)
      | .error e =>
        if isRateLimitError (.api e) then
          let st := { st with lastApiCallTime := env.now,
                              settings.lastSyncTime := env.now }
          (.error (.plain "X API rate limit exceeded. Please try again in 15 minutes."),
            st, 2)
        else
          (.error (.api e), st, 2)

/-- The `catch` block of `fetchBookmarks` (`twitter-service.ts:1077-1142`):
a rate-limit-coded error updates the rate timestamps and is translated
into a wait-time message; an auth-coded error (with a refresh token
available and the gate open) triggers exactly one refresh — on success
the code throws a "please resync" signal (rewrapped by its own inner
`catch` into `Authentication error: …`), on failure it falls through;
anything else is wrapped as `Failed to fetch bookmarks: …`. -/
def fetchCatch (st : ServiceState) (e : JsError) (env : FetchEnv) :
    String × ServiceState × Nat :=
  if isRateLimitError e then
    let waitMessage :=
      match e.rateLimitReset with
      | some reset =>
        "X API rate limit exceeded. Please try again in " ++
          toString (ceilDiv (reset * 1000 - env.now) (1000 * 60)) ++ " minutes."
      | none => "X API rate limit exceeded. Please try again in 15 minutes."
    let st := { st with lastApiCallTime := env.now,
                        settings.lastSyncTime := env.now }
    (waitMessage, st, 0)
  else if st.settings.oauth2RefreshToken ≠ "" ∧
      isRateLimited st.settings.bypassRateLimit st.lastApiCallTime
        st.settings.lastSyncTime env.now = false ∧
      isAuthError e then
    let rr := refreshAccessToken st.settings st.lastApiCallTime 0 1 env.now
        env.refreshResponse
    let st := { st with settings := rr.settings,
                        lastApiCallTime := rr.lastApiCallTime,
                        clientInitialized :=
                          if rr.success then rr.settings.oauth2AccessToken ≠ ""
                          else st.clientInitialized }
    if rr.success then
      ("Authentication error: Authentication refreshed. Please try syncing again.",
        st, rr.requests)
    else
      ("Failed to fetch bookmarks: " ++ e.message, st, rr.requests)
  else
    ("Failed to fetch bookmarks: " ++ e.message, st, 0)

/-- Embeds `TwitterService.fetchBookmarks` (`twitter-service.ts:898-1147`):
single-flight guard, pre-flight rate-limit check, then the body under a
`try/catch/finally` whose `finally` always clears `apiCallsInProgress`. -/
def fetchBookmarks (st : ServiceState) (lastSyncTimestamp : Int) (env : FetchEnv) :
    FetchResult :=
  if st.apiCallsInProgress then
    ⟨.error "Another API call is already in progress. Please wait for it to complete.",
      st, 0⟩
  else if isRateLimited st.settings.bypassRateLimit st.lastApiCallTime
      st.settings.lastSyncTime env.now then
    let timeElapsed := env.now - max st.lastApiCallTime st.settings.lastSyncTime
    let timeToWait := ceilDiv (apiRateLimitWindow - timeElapsed) (1000 * 60)
    ⟨.error ("X API rate limit not reset yet. Please wait approximately " ++
        toString timeToWait ++ " more minutes before trying again."), st, 0⟩
  else
    let st1 := { st with apiCallsInProgress := true }
    match fetchBody st1 lastSyncTimestamp env with
    | (.ok bs, st2, n) =>
      ⟨.ok bs, { st2 with apiCallsInProgress := false }, n⟩
    | (.error e, st2, n) =>
      match fetchCatch st2 e env with
      | (msg, st3, m) =>
        ⟨.error msg, { st3 with apiCallsInProgress := false }, n + m⟩

/-! ## syncBookmarks (`main.ts:315-525`) -/

/-- Embeds `BookmarkBridgePlugin.validateSettings` (`main.ts:527-552`). -/
def validateSettings (s : Settings) : Bool :=
  s.clientId ≠ "" && s.oauth2AccessToken ≠ "" && s.targetFolder ≠ "" &&
    !(s.storageMethod = StorageMethod.single && s.singleFileName = "")

/-- Embeds `TwitterService.checkRateLimitStatus` (`twitter-service.ts:1199-1231`):
same gate as `isRateLimited` but throwing a descriptive error when
limited. -/
def checkRateLimitStatus (bypass : Bool) (lastApiCallTime lastSyncTime now : Int) :
    Except String Bool :=
  if bypass then .ok false
  else
    let lastRelevantTime := max lastApiCallTime lastSyncTime
    if lastRelevantTime = 0 then .ok false
    else
      let timeElapsed := now - lastRelevantTime
      if timeElapsed < apiRateLimitWindow then
        .error ("X API rate limit active. Please wait approximately " ++
          toString (ceilDiv (apiRateLimitWindow - timeElapsed) (1000 * 60)) ++
          " more minutes (until " ++
          jsDateString (lastRelevantTime + apiRateLimitWindow) ++ ").")
      else .ok false

/-- The plugin state visible to `syncBookmarks`: the service (whose
`settings` object is the plugin's own settings, shared by reference) and
the cooldown deadline `nextAllowedSyncTime` (`main.ts:104`). -/
structure AppState where
  service : ServiceState
  nextAllowedSyncTime : Int
  deriving Repr, DecidableEq

/-- Oracle for one `syncBookmarks` call: the entry clock value, the
fetch call's environment, the outcome of
`bookmarkProcessor.processBookmarks`, and the clock value at the
`lastSyncTimestamp` update (`main.ts:425`). -/
structure SyncEnv where
  now : Int
  fetchEnv : FetchEnv
  processResult : Except String Unit
  nowAfter : Int
  deriving Repr

/-- How one `syncBookmarks` call ended. -/
inductive SyncOutcome where
  | invalidSettings
  | cooldownActive
  | rateLimitCheckFailed (msg : String)
  | alreadyInProgress
  | noNewBookmarks
  | synced (count : Nat)
  | authRefreshed
  | syncFailed (msg : String)
  deriving Repr, DecidableEq

/-- Result of one `syncBookmarks` call: outcome, final plugin state,
whether `fetchBookmarks` was invoked, total network requests, and the
duration passed to `setCooldown` (when called). -/
structure SyncResult where
  outcome : SyncOutcome
  state : AppState
  fetchInvoked : Bool
  requests : Nat
  cooldownSet : Option Int
  deriving Repr, DecidableEq

/-- The `finally` block of `syncBookmarks` (`main.ts:520-524`): always clear
`syncInProgress`. -/
def clearSync (st : ServiceState) : ServiceState :=
  { st with settings.syncInProgress := false }

/-- The `catch (fetchError)` handler of `syncBookmarks`
(`main.ts:452-519`): a token-refresh signal sets a 30-second cooldown;
any other error sets a five-minute cooldown, or `(N + 1)` minutes when
the message carries a `wait approximately (\d+) more minutes` hint;
the `finally` block then clears `syncInProgress`. -/
def syncHandleFetchError (st : ServiceState) (msg : String) (now : Int)
    (requests : Nat) : SyncResult :=
  if containsSubstr msg "Authentication refreshed" then
    ⟨.authRefreshed, ⟨clearSync st, now + 30 * 1000⟩, true, requests,
      some (30 * 1000)⟩
  else
    let cooldownTime : Int :=
      if containsSubstr msg "wait approximately" then
        match scanPattern "wait approximately " " more minutes" msg.toList with
        | some m => ((m : Int) + 1) * 60 * 1000
        | none => 5 * 60 * 1000
      else 5 * 60 * 1000
    ⟨.syncFailed msg, ⟨clearSync st, now + cooldownTime⟩, true, requests,
      some cooldownTime⟩

/-- Embeds `BookmarkBridgePlugin.syncBookmarks` (`main.ts:315-525`): validate
settings; decline during a cooldown (unless bypassing); consult
`checkRateLimitStatus` (unless bypassing); reject when a sync is already
in progress; otherwise set `syncInProgress`, fetch one page, process it,
advance `lastSyncTimestamp` only when `initialSyncComplete` holds, set
the appropriate cooldown, and always clear `syncInProgress` on exit. -/
def syncBookmarks (app : AppState) (_isAutoSync : Bool) (env : SyncEnv) :
    SyncResult :=
  let s := app.service.settings
  if ¬validateSettings s then
    ⟨.invalidSettings, app, false, 0, none⟩
  else if ¬s.bypassRateLimit ∧ env.now < app.nextAllowedSyncTime then
    ⟨.cooldownActive, app, false, 0, none⟩
  else
    let rateCheck : Except String Bool :=
      if s.bypassRateLimit then .ok false
      else checkRateLimitStatus s.bypassRateLimit app.service.lastApiCallTime
          s.lastSyncTime env.now
    match rateCheck with
    | .error msg => ⟨.rateLimitCheckFailed msg, app, false, 0, none⟩
    | .ok _ =>
      if s.syncInProgress then
        ⟨.alreadyInProgress, app, false, 0, none⟩
      else
        let svc0 := { app.service with settings.syncInProgress := true }
        let fr := fetchBookmarks svc0 svc0.settings.lastSyncTimestamp env.fetchEnv
        match fr.result with
        | .error msg => syncHandleFetchError fr.state msg env.now fr.requests
        | .ok [] =>
          ⟨.noNewBookmarks, ⟨clearSync fr.state, env.now + 60 * 1000⟩, true,
            fr.requests, some (60 * 1000)⟩
        | .ok bookmarks =>
          match env.processResult with
          | .error pmsg =>
            syncHandleFetchError fr.state ("Error processing bookmarks: " ++ pmsg)
              env.now fr.requests
          | .ok _ =>
            let svc :=
              if fr.state.settings.initialSyncComplete then
                { fr.state with settings.lastSyncTimestamp := env.nowAfter }
              else fr.state
            ⟨.synced bookmarks.length, ⟨clearSync svc, env.now + 15 * 60 * 1000⟩,
              true, fr.requests, some (15 * 60 * 1000)⟩

/-! ## Operation steps and example fixtures -/

/-- One step of the sync state machine: a `syncBookmarks` call or a bare
`fetchBookmarks` call. -/
inductive Op where
  | sync (isAutoSync : Bool) (env : SyncEnv)
  | fetch (lastSyncTimestamp : Int) (env : FetchEnv)

/-- The plugin state reached by one operation; any sequence of sync and
fetch calls is a composition of such steps. -/
def applyOp (app : AppState) : Op → AppState
  | .sync auto env => (syncBookmarks app auto env).state
  | .fetch ts env => { app with service := (fetchBookmarks app.service ts env).state }

/-- Example settings: authorized, initial sync complete, incremental
cutoff at 5 ms. -/
def exSettings : Settings :=
  { clientId := "cid", clientSecret := "", oauth2AccessToken := "tok",
    oauth2RefreshToken := "", codeVerifier := "",
    storageMethod := .separate, targetFolder := "Twitter Bookmarks",
    singleFileName := "twitter-bookmarks.md", lastSyncTimestamp := 5,
    nextPaginationToken := "", initialSyncComplete := true, lastSyncPage := 0,
    lastSyncTime := 0, syncInProgress := false, bypassRateLimit := false }

/-- Example idle service state. -/
def exService : ServiceState :=
  { settings := exSettings, lastApiCallTime := 0, apiCallsInProgress := false,
    clientInitialized := true }

/-- Example idle plugin state. -/
def exApp : AppState := { service := exService, nextAllowedSyncTime := 0 }

/-- Example plugin state with a sync already in progress. -/
def exAppBusy : AppState :=
  { service := { exService with settings.syncInProgress := true },
    nextAllowedSyncTime := 0 }

/-- Example service state with an API call already in flight. -/
def exServiceBusy : ServiceState := { exService with apiCallsInProgress := true }

/-- Example raw tweet created at 10 ms. -/
def exTweet : RawTweet :=
  { id := "t2", text := "hello", created_at := 10, author_id := "u1",
    media_keys := [] }

/-- Example final bookmarks page (no `meta.next_token`). -/
def exPageLast : BookmarksPage :=
  { data := some [exTweet], includes := none, meta := none }

/-- Example bookmarks page carrying a continuation token. -/
def exPageMore : BookmarksPage :=
  { data := some [exTweet], includes := none,
    meta := some { next_token := some "tok123" } }

/-- Fetch oracle delivering `exPageLast`. -/
def exFetchEnvLast : FetchEnv :=
  { now := 100, meResult := .ok "u1", bookmarksResult := .ok exPageLast,
    refreshResponse := .error "unused" }

/-- Fetch oracle delivering `exPageMore`. -/
def exFetchEnvMore : FetchEnv :=
  { now := 100, meResult := .ok "u1", bookmarksResult := .ok exPageMore,
    refreshResponse := .error "unused" }

/-- Sync oracle: successful fetch of `exPageLast`, successful note
processing, follow-up clock at 1000 ms. -/
def exSyncEnv : SyncEnv :=
  { now := 100, fetchEnv := exFetchEnvLast, processResult := .ok (),
    nowAfter := 1000 }

/-! ## State-preservation lemmas -/

/-- Shows that `refreshAccessToken` never writes `lastSyncTimestamp`. -/
theorem refreshAccessToken_keeps_lastSyncTimestamp (st : Settings) (la : Int)
    (rc mr : Nat) (now : Int) (resp : Except String TokenResponse) :
    (refreshAccessToken st la rc mr now resp).settings.lastSyncTimestamp =
      st.lastSyncTimestamp := by
  simp only [refreshAccessToken]
  repeat' split
  all_goals rfl

/-- The `fetchBookmarks` body never writes `lastSyncTimestamp`. -/
theorem fetchBody_keeps_lastSyncTimestamp (st : ServiceState) (ts : Int)
    (env : FetchEnv) :
    (fetchBody st ts env).2.1.settings.lastSyncTimestamp =
      st.settings.lastSyncTimestamp := by
  simp only [fetchBody]
  repeat' split
  all_goals rfl

/-- The `fetchBookmarks` error handler never writes `lastSyncTimestamp`. -/
theorem fetchCatch_keeps_lastSyncTimestamp (st : ServiceState) (e : JsError)
    (env : FetchEnv) :
    (fetchCatch st e env).2.1.settings.lastSyncTimestamp =
      st.settings.lastSyncTimestamp := by
  simp only [fetchCatch]
  repeat' split
  all_goals first
    | rfl
    | exact refreshAccessToken_keeps_lastSyncTimestamp _ _ _ _ _ _

/-- Shows that `fetchBookmarks` never writes `lastSyncTimestamp` on any path. -/
theorem fetchBookmarks_keeps_lastSyncTimestamp (st : ServiceState) (ts : Int)
    (env : FetchEnv) :
    (fetchBookmarks st ts env).state.settings.lastSyncTimestamp =
      st.settings.lastSyncTimestamp := by
  simp only [fetchBookmarks]
  split
  · rfl
  split
  · rfl
  split
  next bs st2 n heq =>
    have h := fetchBody_keeps_lastSyncTimestamp
      { st with apiCallsInProgress := true } ts env
    rw [heq] at h
    simpa using h
  next e st2 n heq =>
    have h := fetchBody_keeps_lastSyncTimestamp
      { st with apiCallsInProgress := true } ts env
    rw [heq] at h
    have h2 := fetchCatch_keeps_lastSyncTimestamp st2 e env
    simp at h
    simp [h2, h]

/-- Every exit of the `syncBookmarks` fetch-error handler goes through
the `finally` cleanup. -/
theorem syncHandleFetchError_state (st : ServiceState) (msg : String)
    (now : Int) (req : Nat) :
    (syncHandleFetchError st msg now req).state.service = clearSync st := by
  simp only [syncHandleFetchError]
  repeat' split
  all_goals rfl

/-! ## Claim theorems -/

/-- C2: `isRateLimited` returns `false` under bypass; returns `false` when
no prior call is recorded; and otherwise returns `true` exactly when
`now - max lastApiCallTime lastSyncTime < apiRateLimitWindow`. -/
theorem isRateLimited_spec (bypass : Bool) (lastApiCallTime lastSyncTime now : Int) :
    (bypass = true → isRateLimited bypass lastApiCallTime lastSyncTime now = false) ∧
    (max lastApiCallTime lastSyncTime = 0 →
      isRateLimited false lastApiCallTime lastSyncTime now = false) ∧
    (bypass = false → max lastApiCallTime lastSyncTime ≠ 0 →
      (isRateLimited bypass lastApiCallTime lastSyncTime now = true ↔
        now - max lastApiCallTime lastSyncTime < apiRateLimitWindow)) := by
  refine ⟨fun hb => ?_, fun h0 => ?_, fun hb hne => ?_⟩
  · simp [isRateLimited, hb]
  · simp [isRateLimited, h0]
  · simp [isRateLimited, hb, hne]

/-- Witness for C2: a concrete application of `isRateLimited_spec`. -/
theorem isRateLimited_spec_witness :
    isRateLimited false 1000 2000 3000 = true ↔
      (3000 : Int) - max 1000 2000 < apiRateLimitWindow :=
  (isRateLimited_spec false 1000 2000 3000).2.2 rfl (by decide)

/-- C3 counterexample: the claim asserts that immediately after recording a
call at time `now`, `isRateLimited` evaluated at `now` itself is `false`.
At `now = 1` the code computes an elapsed time of `0 < apiRateLimitWindow`
and returns `true`, refuting the claim. -/
theorem recordCall_immediately_limited_counterexample :
    isRateLimitedAt false (updateRateLimitTimestamp 1 ⟨0, 0⟩) 1 = true := by
  decide

/-- C3 (amended): after recording a call at time `now > 0` (bypass
disabled), `isRateLimited` is `true` at `now` itself, `true` at every
`now'` strictly between `now` and `now + apiRateLimitWindow`, and `false`
again at exactly `now + apiRateLimitWindow`. -/
theorem recordCall_window_spec (now : Int) (hpos : 0 < now) (r : RateState) :
    isRateLimitedAt false (updateRateLimitTimestamp now r) now = true ∧
    (∀ now' : Int, now < now' → now' < now + apiRateLimitWindow →
      isRateLimitedAt false (updateRateLimitTimestamp now r) now' = true) ∧
    isRateLimitedAt false (updateRateLimitTimestamp now r) (now + apiRateLimitWindow) = false := by
  refine ⟨?_, fun now' h1 h2 => ?_, ?_⟩
  · simp only [isRateLimitedAt, updateRateLimitTimestamp, isRateLimited,
      Bool.false_eq_true, if_false, max_self]
    rw [if_neg (by omega)]
    simp only [decide_eq_true_eq, apiRateLimitWindow]
    omega
  · simp only [isRateLimitedAt, updateRateLimitTimestamp, isRateLimited,
      Bool.false_eq_true, if_false, max_self]
    rw [if_neg (by omega)]
    simp only [apiRateLimitWindow] at h2
    simp only [decide_eq_true_eq, apiRateLimitWindow]
    omega
  · simp only [isRateLimitedAt, updateRateLimitTimestamp, isRateLimited,
      Bool.false_eq_true, if_false, max_self]
    rw [if_neg (by omega)]
    simp only [decide_eq_false_iff_not, decide_eq_true_eq, apiRateLimitWindow]
    omega

/-- Witness for C3 (amended): concrete run at `now = 1`. -/
theorem recordCall_window_spec_witness :
    isRateLimitedAt false (updateRateLimitTimestamp 1 ⟨0, 0⟩) 1 = true ∧
    isRateLimitedAt false (updateRateLimitTimestamp 1 ⟨0, 0⟩) (1 + apiRateLimitWindow) = false := by
  have h := recordCall_window_spec 1 (by decide) ⟨0, 0⟩
  exact ⟨h.1, h.2.2⟩

/-- C6: with an active cutoff (`lastSyncTimestamp > 0`),
`processBookmarksPage` keeps exactly the raw items whose `createdAt` is
strictly greater than the cutoff — items at or before the cutoff
(including the exact boundary) are excluded, and every strictly later
item (even by 1 ms) is normalized and included, in order. -/
theorem processBookmarksPage_cutoff (page : BookmarksPage) (lastSyncTimestamp : Int)
    (hcut : 0 < lastSyncTimestamp) :
    processBookmarksPage page lastSyncTimestamp =
      (((page.data.getD []).filter
          (fun t => lastSyncTimestamp < t.created_at)).map
        (mkBookmark page.includes)) := by
  unfold processBookmarksPage
  induction (page.data.getD []) with
  | nil => rfl
  | cons tweet rest ih =>
    by_cases h : tweet.created_at ≤ lastSyncTimestamp
    · rw [processTweets, if_pos ⟨hcut, h⟩, List.filter_cons,
        if_neg (by simp; omega)]
      exact ih
    · rw [processTweets, if_neg (by tauto), List.filter_cons,
        if_pos (by simp; omega), List.map_cons]
      exact congrArg _ ih

/-- Witness for C6: a two-item page filtered at cutoff 5 keeps only the
item with `created_at = 6`. -/
theorem processBookmarksPage_cutoff_witness :
    processBookmarksPage
        { data := some [⟨"t1", "a", 5, "u1", []⟩, ⟨"t2", "b", 6, "u1", []⟩],
          includes := none, meta := none } 5 =
      ((((some [⟨"t1", "a", 5, "u1", []⟩,
             (⟨"t2", "b", 6, "u1", []⟩ : RawTweet)] : Option (List RawTweet)).getD
             []).filter (fun t => (5 : Int) < t.created_at)).map
        (mkBookmark none)) :=
  processBookmarksPage_cutoff _ 5 (by decide)

/-- A tweet of the page that the cutoff does not skip contributes its
normalized bookmark to the output of the processing loop. -/
theorem processTweets_mem (incl : Option Includes) (ts : Int)
    (l : List RawTweet) (tweet : RawTweet) (hmem : tweet ∈ l)
    (hkeep : ¬(ts > 0 ∧ tweet.created_at ≤ ts)) :
    mkBookmark incl tweet ∈ processTweets incl ts l := by
  induction l with
  | nil => cases hmem
  | cons t rest ih =>
    rw [processTweets]
    rcases List.mem_cons.mp hmem with heq | hmem'
    · subst heq
      rw [if_neg hkeep]
      exact List.mem_cons_self _ _
    · split
      · exact ih hmem'
      · exact List.mem_cons_of_mem _ (ih hmem')

/-- C10: a raw item whose `author_id` matches no entry of
`includes.users`, and which passes the cutoff filter, is not dropped:
its normalized bookmark appears in the output with
`authorUsername = "unknown"` and `authorName = "Unknown User"`. -/
theorem processBookmarksPage_missing_author (page : BookmarksPage)
    (lastSyncTimestamp : Int) (tweet : RawTweet)
    (hmem : tweet ∈ page.data.getD [])
    (hkeep : ¬(lastSyncTimestamp > 0 ∧ tweet.created_at ≤ lastSyncTimestamp))
    (hauthor : findAuthor page.includes tweet.author_id = none) :
    mkBookmark page.includes tweet ∈ processBookmarksPage page lastSyncTimestamp ∧
    (mkBookmark page.includes tweet).authorUsername = "unknown" ∧
    (mkBookmark page.includes tweet).authorName = "Unknown User" := by
  refine ⟨processTweets_mem _ _ _ _ hmem hkeep, ?_, ?_⟩
  · simp [mkBookmark, hauthor, jsStrOrD]
  · simp [mkBookmark, hauthor, jsStrOrD]

/-- Witness for C10: a page whose only tweet has an author id absent from
`includes.users`. -/
theorem processBookmarksPage_missing_author_witness :
    mkBookmark (some ⟨some [⟨"u9", "Alice", "alice"⟩], none⟩)
        ⟨"t1", "hello", 10, "u1", []⟩ ∈
      processBookmarksPage
        { data := some [⟨"t1", "hello", 10, "u1", []⟩],
          includes := some ⟨some [⟨"u9", "Alice", "alice"⟩], none⟩,
          meta := none } 0 ∧
    (mkBookmark (some ⟨some [⟨"u9", "Alice", "alice"⟩], none⟩)
        ⟨"t1", "hello", 10, "u1", []⟩).authorUsername = "unknown" ∧
    (mkBookmark (some ⟨some [⟨"u9", "Alice", "alice"⟩], none⟩)
        ⟨"t1", "hello", 10, "u1", []⟩).authorName = "Unknown User" :=
  processBookmarksPage_missing_author _ 0 _ (by decide) (by decide) (by decide)

/-- C8: when the token endpoint answers `refreshAccessToken` with
HTTP 429, the call returns failure after its single token request — it
never issues a second one (no recursive retry) — reports the wait time
extracted from the `retry-after` header / `wait (\d+) minutes`
error-description pattern, and leaves the stored tokens unchanged for
the caller to schedule a retry. -/
theorem refreshAccessToken_429 (st : Settings) (lastApiCallTime : Int)
    (retryCount maxRetries : Nat) (now : Int) (r : TokenResponse)
    (hrt : st.oauth2RefreshToken ≠ "") (hcid : st.clientId ≠ "")
    (hretry : retryCount ≤ maxRetries) (h429 : r.statusCode = 429) :
    (refreshAccessToken st lastApiCallTime retryCount maxRetries now
        (.ok r)).success = false ∧
    (refreshAccessToken st lastApiCallTime retryCount maxRetries now
        (.ok r)).requests = 1 ∧
    (refreshAccessToken st lastApiCallTime retryCount maxRetries now
        (.ok r)).rateLimitWaitMs = some (rateLimitWaitTime r.retryAfter r.body) ∧
    (refreshAccessToken st lastApiCallTime retryCount maxRetries now
        (.ok r)).settings.oauth2AccessToken = st.oauth2AccessToken ∧
    (refreshAccessToken st lastApiCallTime retryCount maxRetries now
        (.ok r)).settings.oauth2RefreshToken = st.oauth2RefreshToken := by
  simp only [refreshAccessToken, if_neg hrt, if_neg hcid,
    if_neg (by omega : ¬retryCount > maxRetries), h429, if_pos rfl]
  exact ⟨rfl, rfl, rfl, rfl, rfl⟩

/-- Witness for C8: a 429 with `retry-after: 120` yields failure, one
request, and a 120-second wait. -/
theorem refreshAccessToken_429_witness :
    (refreshAccessToken
        { clientId := "cid", clientSecret := "", oauth2AccessToken := "at",
          oauth2RefreshToken := "rt", codeVerifier := "",
          storageMethod := .separate, targetFolder := "F",
          singleFileName := "f.md", lastSyncTimestamp := 0,
          nextPaginationToken := "", initialSyncComplete := false,
          lastSyncPage := 0, lastSyncTime := 0, syncInProgress := false,
          bypassRateLimit := false } 0 0 1 50
        (.ok ⟨429, some "120", none⟩)).success = false ∧
    (refreshAccessToken
        { clientId := "cid", clientSecret := "", oauth2AccessToken := "at",
          oauth2RefreshToken := "rt", codeVerifier := "",
          storageMethod := .separate, targetFolder := "F",
          singleFileName := "f.md", lastSyncTimestamp := 0,
          nextPaginationToken := "", initialSyncComplete := false,
          lastSyncPage := 0, lastSyncTime := 0, syncInProgress := false,
          bypassRateLimit := false } 0 0 1 50
        (.ok ⟨429, some "120", none⟩)).requests = 1 ∧
    rateLimitWaitTime (some "120") none = 120 * 1000 := by
  have h := refreshAccessToken_429
    { clientId := "cid", clientSecret := "", oauth2AccessToken := "at",
      oauth2RefreshToken := "rt", codeVerifier := "",
      storageMethod := .separate, targetFolder := "F",
      singleFileName := "f.md", lastSyncTimestamp := 0,
      nextPaginationToken := "", initialSyncComplete := false,
      lastSyncPage := 0, lastSyncTime := 0, syncInProgress := false,
      bypassRateLimit := false } 0 0 1 50 ⟨429, some "120", none⟩
    (by decide) (by decide) (by decide) rfl
  exact ⟨h.1, h.2.1, by decide⟩

/-- C9 counterexample: the claim says `revokeToken` clears all local
token fields and returns `true` for every starting credentials state.
With an access token but an empty client id it returns `false` and
clears nothing; and with an empty access token but a non-empty refresh
token it returns `true` yet leaves the refresh token stored. -/
theorem revokeToken_always_true_counterexample :
    (revokeToken
        { clientId := "", clientSecret := "", oauth2AccessToken := "at",
          oauth2RefreshToken := "rt", codeVerifier := "cv",
          storageMethod := .separate, targetFolder := "F",
          singleFileName := "f.md", lastSyncTimestamp := 0,
          nextPaginationToken := "", initialSyncComplete := false,
          lastSyncPage := 0, lastSyncTime := 0, syncInProgress := false,
          bypassRateLimit := false } 0 100 (.ok 200)).result = false ∧
    (revokeToken
        { clientId := "cid", clientSecret := "", oauth2AccessToken := "",
          oauth2RefreshToken := "rt", codeVerifier := "cv",
          storageMethod := .separate, targetFolder := "F",
          singleFileName := "f.md", lastSyncTimestamp := 0,
          nextPaginationToken := "", initialSyncComplete := false,
          lastSyncPage := 0, lastSyncTime := 0, syncInProgress := false,
          bypassRateLimit := false } 0 100
        (.ok 200)).settings.oauth2RefreshToken = "rt" := by
  decide

/-- C9 (amended): when a stored access token and a client id are both
present, `revokeToken` clears the access token, refresh token and code
verifier and returns `true` regardless of the network outcome; with no
stored access token it returns `true` leaving the settings unchanged;
with an access token but no client id it returns `false` without
clearing. -/
theorem revokeToken_spec (st : Settings) (lastApiCallTime now : Int)
    (response : Except String Int) :
    (st.oauth2AccessToken ≠ "" → st.clientId ≠ "" →
      (revokeToken st lastApiCallTime now response).result = true ∧
      (revokeToken st lastApiCallTime now response).settings.oauth2AccessToken = "" ∧
      (revokeToken st lastApiCallTime now response).settings.oauth2RefreshToken = "" ∧
      (revokeToken st lastApiCallTime now response).settings.codeVerifier = "") ∧
    (st.oauth2AccessToken = "" →
      (revokeToken st lastApiCallTime now response).result = true ∧
      (revokeToken st lastApiCallTime now response).settings = st) ∧
    (st.oauth2AccessToken ≠ "" → st.clientId = "" →
      (revokeToken st lastApiCallTime now response).result = false ∧
      (revokeToken st lastApiCallTime now response).settings = st) := by
  refine ⟨fun hat hcid => ?_, fun hat => ?_, fun hat hcid => ?_⟩
  · simp [revokeToken, hat, hcid]
  · simp [revokeToken, hat]
  · simp [revokeToken, hat, hcid]

/-- Witness for C9 (amended): with credentials present and the network
failing, the call still clears all token fields and returns `true`. -/
theorem revokeToken_spec_witness :
    (revokeToken
        { clientId := "cid", clientSecret := "", oauth2AccessToken := "at",
          oauth2RefreshToken := "rt", codeVerifier := "cv",
          storageMethod := .separate, targetFolder := "F",
          singleFileName := "f.md", lastSyncTimestamp := 0,
          nextPaginationToken := "", initialSyncComplete := false,
          lastSyncPage := 0, lastSyncTime := 0, syncInProgress := false,
          bypassRateLimit := false } 0 100
        (.error "timeout")).result = true ∧
    (revokeToken
        { clientId := "cid", clientSecret := "", oauth2AccessToken := "at",
          oauth2RefreshToken := "rt", codeVerifier := "cv",
          storageMethod := .separate, targetFolder := "F",
          singleFileName := "f.md", lastSyncTimestamp := 0,
          nextPaginationToken := "", initialSyncComplete := false,
          lastSyncPage := 0, lastSyncTime := 0, syncInProgress := false,
          bypassRateLimit := false } 0 100
        (.error "timeout")).settings.oauth2AccessToken = "" ∧
    (revokeToken
        { clientId := "cid", clientSecret := "", oauth2AccessToken := "at",
          oauth2RefreshToken := "rt", codeVerifier := "cv",
          storageMethod := .separate, targetFolder := "F",
          singleFileName := "f.md", lastSyncTimestamp := 0,
          nextPaginationToken := "", initialSyncComplete := false,
          lastSyncPage := 0, lastSyncTime := 0, syncInProgress := false,
          bypassRateLimit := false } 0 100
        (.error "timeout")).settings.oauth2RefreshToken = "" ∧
    (revokeToken
        { clientId := "cid", clientSecret := "", oauth2AccessToken := "at",
          oauth2RefreshToken := "rt", codeVerifier := "cv",
          storageMethod := .separate, targetFolder := "F",
          singleFileName := "f.md", lastSyncTimestamp := 0,
          nextPaginationToken := "", initialSyncComplete := false,
          lastSyncPage := 0, lastSyncTime := 0, syncInProgress := false,
          bypassRateLimit := false } 0 100
        (.error "timeout")).settings.codeVerifier = "" :=
  (revokeToken_spec _ 0 100 (.error "timeout")).1 (by decide) (by decide)

/-- C1: across any sync or fetch step, the persisted `lastSyncTimestamp`
changes only when `initialSyncComplete` is true at the point of the
update (equivalently: it is never changed while `initialSyncComplete` is
false); since every sequence of sync/fetch calls is a composition of
such steps, the invariant holds across all sequences. -/
theorem lastSyncTimestamp_advances_only_when_complete (app : AppState) (op : Op) :
    (applyOp app op).service.settings.lastSyncTimestamp ≠
      app.service.settings.lastSyncTimestamp →
    (applyOp app op).service.settings.initialSyncComplete = true := by
  cases op with
  | fetch ts fenv =>
    intro hne
    exact absurd (by simpa [applyOp] using
      fetchBookmarks_keeps_lastSyncTimestamp app.service ts fenv) hne
  | sync auto env =>
    simp only [applyOp, syncBookmarks]
    repeat' split
    all_goals intro hne
    all_goals first
      | exact absurd rfl hne
      | assumption
      | exact absurd (by
          simp [syncHandleFetchError_state, clearSync,
            fetchBookmarks_keeps_lastSyncTimestamp]) hne

/-- Witness for C1: a successful incremental sync on `exApp` advances
`lastSyncTimestamp` with `initialSyncComplete` true. -/
theorem lastSyncTimestamp_advances_only_when_complete_witness :
    (applyOp exApp (.sync false exSyncEnv)).service.settings.lastSyncTimestamp ≠
      exApp.service.settings.lastSyncTimestamp ∧
    (applyOp exApp (.sync false exSyncEnv)).service.settings.initialSyncComplete =
      true :=
  ⟨by decide,
   lastSyncTimestamp_advances_only_when_complete exApp (.sync false exSyncEnv)
     (by decide)⟩

/-- C4: a `syncBookmarks` call entered with `syncInProgress` set returns
immediately with the state untouched, no fetch started and no network
request issued; a `fetchBookmarks` call entered with
`apiCallsInProgress` set throws immediately with no request and no state
change — there is no queueing or blocking wait. -/
theorem singleflight_reject (app : AppState) (auto : Bool) (senv : SyncEnv)
    (st : ServiceState) (ts : Int) (fenv : FetchEnv) :
    (app.service.settings.syncInProgress = true →
      (syncBookmarks app auto senv).state = app ∧
      (syncBookmarks app auto senv).fetchInvoked = false ∧
      (syncBookmarks app auto senv).requests = 0) ∧
    (st.apiCallsInProgress = true →
      fetchBookmarks st ts fenv =
        ⟨.error "Another API call is already in progress. Please wait for it to complete.",
          st, 0⟩) := by
  constructor
  · intro h
    simp only [syncBookmarks]
    repeat' split
    all_goals exact ⟨rfl, rfl, rfl⟩
  · intro h
    simp only [fetchBookmarks]
    rw [if_pos h]

/-- Witness for C4: concrete rejected calls on busy states. -/
theorem singleflight_reject_witness :
    ((syncBookmarks exAppBusy false exSyncEnv).state = exAppBusy ∧
      (syncBookmarks exAppBusy false exSyncEnv).fetchInvoked = false ∧
      (syncBookmarks exAppBusy false exSyncEnv).requests = 0) ∧
    fetchBookmarks exServiceBusy 5 exFetchEnvLast =
      ⟨.error "Another API call is already in progress. Please wait for it to complete.",
        exServiceBusy, 0⟩ :=
  ⟨(singleflight_reject exAppBusy false exSyncEnv exServiceBusy 5
      exFetchEnvLast).1 (by decide),
   (singleflight_reject exAppBusy false exSyncEnv exServiceBusy 5
      exFetchEnvLast).2 (by decide)⟩

/-- C5: neither function leaves its in-progress flag stuck: a
`syncBookmarks` call entered with `syncInProgress` clear ends with it
clear on every exit path (success, empty result, error, exception), and
likewise `fetchBookmarks` for `apiCallsInProgress` — both clear the flag
in a `finally`-equivalent cleanup. -/
theorem inProgress_flag_cleared (app : AppState) (auto : Bool) (senv : SyncEnv)
    (st : ServiceState) (ts : Int) (fenv : FetchEnv) :
    (app.service.settings.syncInProgress = false →
      (syncBookmarks app auto senv).state.service.settings.syncInProgress = false) ∧
    (st.apiCallsInProgress = false →
      (fetchBookmarks st ts fenv).state.apiCallsInProgress = false) := by
  constructor
  · intro h
    simp only [syncBookmarks]
    repeat' split
    all_goals first
      | exact h
      | rfl
      | simp [syncHandleFetchError_state, clearSync]
  · intro h
    simp only [fetchBookmarks]
    repeat' split
    all_goals first
      | exact h
      | rfl

/-- Witness for C5: the flags are clear after concrete full runs. -/
theorem inProgress_flag_cleared_witness :
    (syncBookmarks exApp false exSyncEnv).state.service.settings.syncInProgress =
      false ∧
    (fetchBookmarks exService 5 exFetchEnvLast).state.apiCallsInProgress = false :=
  ⟨(inProgress_flag_cleared exApp false exSyncEnv exService 5
      exFetchEnvLast).1 (by decide),
   (inProgress_flag_cleared exApp false exSyncEnv exService 5
      exFetchEnvLast).2 (by decide)⟩

/-- C7: a completed `fetchBookmarks` call whose bookmarks response
carries a (truthy) `meta.next_token` persists that token into
`nextPaginationToken` and sets `initialSyncComplete` to `false`; a call
whose response carries none clears the token to `""` and sets
`initialSyncComplete` to `true`. -/
theorem fetch_pagination_persistence (st : ServiceState) (ts : Int)
    (fenv : FetchEnv) (uid : String) (page : BookmarksPage)
    (hflag : st.apiCallsInProgress = false)
    (hrate : isRateLimited st.settings.bypassRateLimit st.lastApiCallTime
        st.settings.lastSyncTime fenv.now = false)
    (hclient : st.clientInitialized = true ∨ st.settings.oauth2AccessToken ≠ "")
    (hme : fenv.meResult = .ok uid)
    (hbk : fenv.bookmarksResult = .ok page) :
    (∀ t, jsTokenOf page = some t →
      (fetchBookmarks st ts fenv).state.settings.nextPaginationToken = t ∧
      (fetchBookmarks st ts fenv).state.settings.initialSyncComplete = false) ∧
    (jsTokenOf page = none →
      (fetchBookmarks st ts fenv).state.settings.nextPaginationToken = "" ∧
      (fetchBookmarks st ts fenv).state.settings.initialSyncComplete = true) := by
  have hclientOk : (st.clientInitialized ||
      decide (st.settings.oauth2AccessToken ≠ "")) = true := by
    rcases hclient with h | h <;> simp [h]
  refine ⟨fun t ht => ?_, fun hnone => ?_⟩
  · simp only [fetchBookmarks, fetchBody, hflag, hrate, hclientOk, hme, hbk, ht]
    simp
  · simp only [fetchBookmarks, fetchBody, hflag, hrate, hclientOk, hme, hbk, hnone]
    simp

/-- Witness for C7: both pagination outcomes on concrete pages. -/
theorem fetch_pagination_persistence_witness :
    ((fetchBookmarks exService 5 exFetchEnvMore).state.settings.nextPaginationToken =
        "tok123" ∧
      (fetchBookmarks exService 5 exFetchEnvMore).state.settings.initialSyncComplete =
        false) ∧
    ((fetchBookmarks exService 5 exFetchEnvLast).state.settings.nextPaginationToken =
        "" ∧
      (fetchBookmarks exService 5 exFetchEnvLast).state.settings.initialSyncComplete =
        true) :=
  ⟨(fetch_pagination_persistence exService 5 exFetchEnvMore "u1" exPageMore
      (by decide) (by decide) (Or.inl (by decide)) rfl rfl).1 "tok123" (by decide),
   (fetch_pagination_persistence exService 5 exFetchEnvLast "u1" exPageLast
      (by decide) (by decide) (Or.inl (by decide)) rfl rfl).2 (by decide)⟩

end BookmarkBridge
